import Mathlib

/-!
Verification of the core logic of the enhanced math game
(src/enhanced-math-game(1).py) against its specification.

The Python source is shallowly embedded: floats are modelled as rationals
(reals only where the source takes a square root or works with angles),
Python ints as integers, the random number generator as explicit inputs
(streams of candidate values or pre-drawn numbers), and the unbounded
while loops of Problem.generate_wrong_answers as fuel-indexed recursive
functions returning Option (none = the loop has not returned within the
given fuel).
-/

namespace MathGame

/-! ## Constants (GAME_CONSTANTS, lines 15-51) -/

def WINDOW_WIDTH : ℚ := 900

def WINDOW_HEIGHT : ℚ := 700

def PLAYER_SPEED : ℚ := 6

def BULLET_SPEED : ℚ := 12

def ENEMY_SPEED_BASE : ℚ := 3/2

/-- clamp (lines 66-68): max(min_val, min(value, max_val)). -/
def clamp (value minVal maxVal : ℚ) : ℚ := max minVal (min value maxVal)

/-! ## Problem generation (class Problem, lines 246-583) -/

/-- The four arithmetic operators of the basic and intermediate tiers. -/
inductive Op where
  | add
  | sub
  | mul
  | div
deriving DecidableEq

/-- An arithmetic problem as produced by the tier 1-6 generators:
operands num1 and num2, the operator, and the stored correct answer. -/
structure Problem where
  num1 : ℤ
  num2 : ℤ
  operator : Op
  correct_answer : ℚ
deriving DecidableEq

/-- Rounding to two decimal places, round(x, 2) (line 524).  Mathlib round
is round-half-up while Python rounds half to even; the two differ only at
exact half-of-a-cent ties and this branch is unreachable in every claim
below (it is guarded by non-divisibility). -/
def roundTo2 (q : ℚ) : ℚ := ((round (q * 100) : ℤ) : ℚ) / 100

/-- Problem._calculate_answer (lines 512-526).  Python % is a
floored modulus and agrees with Int.emod on the test against 0; Python //
is floor division, Int.fdiv. -/
def calculate_answer (operator : Op) (num1 num2 : ℤ) : ℚ :=
  match operator with
  | .add => ((num1 + num2 : ℤ) : ℚ)
  | .sub => ((num1 - num2 : ℤ) : ℚ)
  | .mul => ((num1 * num2 : ℤ) : ℚ)
  | .div =>
      if num1 % num2 = 0 then ((num1.fdiv num2 : ℤ) : ℚ)
      else roundTo2 ((num1 : ℚ) / (num2 : ℚ))

/-- Problem.generate dispatch (lines 252-272): which generator family a
difficulty tier selects, after clamping the tier to at most 15.
1 = basic arithmetic, 2 = intermediate arithmetic, 3 = advanced
arithmetic, 4 = simple algebra, 5 = advanced math. -/
def problemFamily (difficulty : ℕ) : ℕ :=
  let diff := min difficulty 15
  if diff ≤ 3 then 1
  else if diff ≤ 6 then 2
  else if diff ≤ 9 then 3
  else if diff ≤ 12 then 4
  else 5

/-- Problem._generate_basic_arithmetic (lines 274-289).  The random draws
are explicit inputs: n1 and n2 are the two randint(1, 10*difficulty)
draws and opPick is the random.choice between + and - taken in the
else branch. -/
def generate_basic_arithmetic (difficulty : ℕ) (n1 n2 : ℤ) (opPick : Op) :
    Problem :=
  if difficulty = 1 then
    { num1 := n1, num2 := n2, operator := Op.add
      correct_answer := calculate_answer Op.add n1 n2 }
  else
    let p := if opPick = Op.sub ∧ n2 > n1 then (n2, n1) else (n1, n2)
    { num1 := p.1, num2 := p.2, operator := opPick
      correct_answer := calculate_answer opPick p.1 p.2 }

/-- The random draws consumed by _generate_intermediate_arithmetic:
n1 is randint(2, 8*difficulty), op the random.choice of operator
(div is only in the choice list when difficulty is at least 5),
n2 is randint(1, 8*difficulty) for + and -, m is randint(2, 4*difficulty)
for the multiplication operand, d is randint(2, 4*difficulty) for the
divisor and q is randint(1, 10) for the hidden quotient. -/
structure InterRand where
  n1 : ℤ
  op : Op
  n2 : ℤ
  m : ℤ
  d : ℤ
  q : ℤ
deriving DecidableEq

/-- Problem._generate_intermediate_arithmetic (lines 291-319).  For the
division operator the source first draws the divisor d and then sets
num1 := d * q so that the quotient is exact. -/
def generate_intermediate_arithmetic (_difficulty : ℕ) (r : InterRand) :
    Problem :=
  match r.op with
  | .add =>
      { num1 := r.n1, num2 := r.n2, operator := Op.add
        correct_answer := calculate_answer Op.add r.n1 r.n2 }
  | .sub =>
      let p := if r.n2 > r.n1 then (r.n2, r.n1) else (r.n1, r.n2)
      { num1 := p.1, num2 := p.2, operator := Op.sub
        correct_answer := calculate_answer Op.sub p.1 p.2 }
  | .mul =>
      { num1 := r.n1, num2 := r.m, operator := Op.mul
        correct_answer := calculate_answer Op.mul r.n1 r.m }
  | .div =>
      { num1 := r.d * r.q, num2 := r.d, operator := Op.div
        correct_answer := calculate_answer Op.div (r.d * r.q) r.d }

/-- The sine table of _generate_advanced_math problem type 1 (line 419),
with the source floats 0.5, 0.707, 0.866 as exact rationals. -/
def sinAngleChoices : List (ℕ × ℚ) :=
  [(0, 0), (30, 1/2), (45, 707/1000), (60, 866/1000), (90, 1)]

/-- The answer reported for a quadratic problem built from the two chosen
roots x1 and x2 (_generate_advanced_math problem type 3, line 444):
the source keeps the root of smaller absolute value. -/
def quadReportedAnswer (x1 x2 : ℤ) : ℤ :=
  if |x1| ≤ |x2| then x1 else x2

/-! ## Problem.generate_wrong_answers (lines 528-583)

The candidate value produced in each loop iteration comes from one of 13
strategies (or, in the fallback loop, from a random window); all of them
depend on random draws, so each loop is modelled over an arbitrary stream
of rational candidates.  The accumulated wrong_answers is a Python set,
modelled as a Finset; the loops are fuel-indexed, with none meaning the
loop has not returned within the given fuel. -/

/-- Number of entries of the strategies list (lines 534-559). -/
def strategiesLen : ℕ := 13

/-- The acceptance test of the strategy loop (lines 566-570): the
candidate differs from the correct answer, is not already collected,
lies within max(10, 2*abs(correct)) of the correct answer, and has
absolute value at most 5*abs(correct). -/
def acceptStrategy (correct : ℚ) (s : Finset ℚ) (w : ℚ) : Bool :=
  decide (w ≠ correct) && decide (w ∉ s) &&
    decide (|w - correct| ≤ max 10 (|correct| * 2)) &&
    decide (|w| ≤ |correct| * 5)

/-- The acceptance test of the fallback loop (line 580): the candidate
differs from the correct answer and is not already collected. -/
def acceptFallback (correct : ℚ) (s : Finset ℚ) (w : ℚ) : Bool :=
  decide (w ≠ correct) && decide (w ∉ s)

/-- The strategy loop (lines 562-570): while the set holds fewer than
count and fewer than 13 values, draw a candidate and add it when the
acceptance test passes. -/
def strategyLoop (correct : ℚ) (count : ℕ) (stream : ℕ → ℚ) :
    ℕ → ℕ → Finset ℚ → Option (Finset ℚ)
  | 0, _, _ => none
  | fuel + 1, i, s =>
      if s.card < count ∧ s.card < strategiesLen then
        let w := stream i
        let s2 := if acceptStrategy correct s w then insert w s else s
        strategyLoop correct count stream fuel (i + 1) s2
      else
        some s

/-- The fallback loop (lines 573-581): while the set holds fewer than
count values, draw a candidate and add it unless it equals the correct
answer or is already collected. -/
def fallbackLoop (correct : ℚ) (count : ℕ) (stream : ℕ → ℚ) :
    ℕ → ℕ → Finset ℚ → Option (Finset ℚ)
  | 0, _, _ => none
  | fuel + 1, i, s =>
      if s.card < count then
        let w := stream i
        let s2 := if acceptFallback correct s w then insert w s else s
        fallbackLoop correct count stream fuel (i + 1) s2
      else
        some s

/-- Problem.generate_wrong_answers (lines 528-583): run the strategy loop
from the empty set, then the fallback loop on its result.  The source
returns list(wrong_answers); the Finset result carries the same
distinct values. -/
def generate_wrong_answers (correct : ℚ) (count : ℕ)
    (stream1 stream2 : ℕ → ℚ) (fuel1 fuel2 : ℕ) : Option (Finset ℚ) :=
  (strategyLoop correct count stream1 fuel1 0 ∅).bind
    (fallbackLoop correct count stream2 fuel2 0)

/-! ## Player (class Player, lines 809-897) -/

/-- The pressed keys the Player.update code reads: each Bool merges the
arrow key with its WASD twin (lines 831-842), plus the space bar. -/
structure Keys where
  left : Bool
  right : Bool
  up : Bool
  down : Bool
  space : Bool
deriving DecidableEq

/-- Player state (Player.__init__, lines 810-823).  The size field of the
source is the constant 20; direction is the facing unit vector. -/
structure PlayerS where
  x : ℚ
  y : ℚ
  dirx : ℚ
  diry : ℚ
  health : ℤ
  invulnerable : Bool
  invulnerable_time : ℚ
  shoot_timer : ℚ
deriving DecidableEq

def PLAYER_SIZE : ℚ := 20

/-- Player.__init__ (lines 810-823): health 3, facing up, no timers. -/
def playerInit (x y : ℚ) : PlayerS :=
  { x := x, y := y, dirx := 0, diry := -1, health := 3,
    invulnerable := false, invulnerable_time := 0, shoot_timer := 0 }

/-- Player.update (lines 828-897): accumulate the movement vector from
the pressed keys (each key also rewrites the facing direction, later
keys winning), scale diagonals by 0.7071, move by PLAYER_SPEED, clamp
the position to the arena minus the player size, run the
invulnerability and shoot countdowns, and emit a bullet spawn point and
direction when space is pressed off cooldown. -/
def playerUpdate (p : PlayerS) (delta_time : ℚ) (k : Keys) :
    PlayerS × Option (ℚ × ℚ × ℚ × ℚ) :=
  let dx1 : ℚ := if k.left then 0 - 1 else 0
  let dir1 : ℚ × ℚ := if k.left then (-1, 0) else (p.dirx, p.diry)
  let dx2 : ℚ := if k.right then dx1 + 1 else dx1
  let dir2 : ℚ × ℚ := if k.right then (1, 0) else dir1
  let dy1 : ℚ := if k.up then 0 - 1 else 0
  let dir3 : ℚ × ℚ := if k.up then (0, -1) else dir2
  let dy2 : ℚ := if k.down then dy1 + 1 else dy1
  let dir4 : ℚ × ℚ := if k.down then (0, 1) else dir3
  let dx : ℚ := if dx2 ≠ 0 ∧ dy2 ≠ 0 then dx2 * (7071/10000) else dx2
  let dy : ℚ := if dx2 ≠ 0 ∧ dy2 ≠ 0 then dy2 * (7071/10000) else dy2
  let dir5 : ℚ × ℚ := if dx2 ≠ 0 ∧ dy2 ≠ 0 then (dx, dy) else dir4
  let x1 := p.x + dx * PLAYER_SPEED
  let y1 := p.y + dy * PLAYER_SPEED
  let x2 := clamp x1 PLAYER_SIZE (WINDOW_WIDTH - PLAYER_SIZE)
  let y2 := clamp y1 PLAYER_SIZE (WINDOW_HEIGHT - PLAYER_SIZE)
  let invt := if p.invulnerable then p.invulnerable_time - delta_time
              else p.invulnerable_time
  let inv : Bool := if p.invulnerable then decide (0 < invt) else false
  let st1 := p.shoot_timer - delta_time
  if k.space ∧ st1 ≤ 0 then
    ({ x := x2, y := y2, dirx := dir5.1, diry := dir5.2, health := p.health,
       invulnerable := inv, invulnerable_time := invt, shoot_timer := 1/5 },
     some (x2 + dir5.1 * PLAYER_SIZE, y2 + dir5.2 * PLAYER_SIZE,
           dir5.1, dir5.2))
  else
    ({ x := x2, y := y2, dirx := dir5.1, diry := dir5.2, health := p.health,
       invulnerable := inv, invulnerable_time := invt, shoot_timer := st1 },
     none)

/-! ## Enemy boundary handling (Enemy.update, lines 628-680)

Every movement variant (linear, sinusoidal, circular, accelerating)
first computes a moved position from trigonometric functions of the
heading and random perturbations, and then runs the same boundary code
(lines 667-680).  The boundary phase is embedded exactly, taking the
post-movement coordinates as inputs; the heading lives in an arbitrary
type D and the two reassignments the source performs on it, direction
:= pi - direction at a vertical wall and direction := -direction at a
horizontal wall, are the parameters hflip and vflip. -/

def enemyBoundary {D : Type} (size : ℚ) (hflip vflip : D → D)
    (x y : ℚ) (d : D) : ℚ × ℚ × D :=
  let p1 : ℚ × D :=
    if x < size then (size, hflip d)
    else if x > WINDOW_WIDTH - size then (WINDOW_WIDTH - size, hflip d)
    else (x, d)
  let p2 : ℚ × D :=
    if y < size then (size, vflip p1.2)
    else if y > WINDOW_HEIGHT - size then (WINDOW_HEIGHT - size, vflip p1.2)
    else (y, p1.2)
  (p1.1, p2.1, p2.2)

/-! ## Bullet (class Bullet, lines 734-757) -/

/-- Bullet.__init__ velocity computation (lines 741-748), generic over
the scalar field so it can be instantiated at the reals with length :=
sqrt(dx^2 + dy^2) as in the source: when the passed length is positive,
scale the direction to the given speed, otherwise take the straight-up
default (0, -speed). -/
def bulletVelocity {α : Type} [LinearOrderedField α]
    (speed dx dy length : α) : α × α :=
  if 0 < length then (dx / length * speed, dy / length * speed)
  else (0, -speed)

/-! ## Game state machine (class GameState line 1096, class Game line 1103) -/

/-- GameState (lines 1096-1101). -/
inductive GState where
  | MENU
  | PLAYING
  | PAUSED
  | GAME_OVER
  | LEVEL_TRANSITION
deriving DecidableEq

/-- The enemy fields the state machine reads and writes: position,
health and the alive flag (Enemy.__init__, lines 588-616). -/
structure EnemyS where
  x : ℚ
  y : ℚ
  health : ℤ
  is_alive : Bool
deriving DecidableEq

/-- Enemy.hit (lines 706-732): decrement health; at health at most 0
the enemy stops being alive.  Particle spawning is rendering and is
dropped. -/
def enemyHit (e : EnemyS) : EnemyS :=
  let h := e.health - 1
  if h ≤ 0 then { e with health := h, is_alive := false }
  else { e with health := h }

/-- A bullet as stored in Game.bullets: position and velocity. -/
structure BulletS where
  x : ℚ
  y : ℚ
  dx : ℚ
  dy : ℚ
deriving DecidableEq

/-- The Game fields the claims touch (Game.__init__, lines 1104-1144).
Rendering surfaces, buttons, sounds, particles and background are
peripheral and dropped. -/
structure GameS where
  state : GState
  score : ℤ
  high_score : ℤ
  level : ℤ
  streak : ℤ
  enemies_killed : ℤ
  total_enemies_killed : ℤ
  state_timer : ℚ
  player : PlayerS
  bullets : List BulletS
  enemies : List EnemyS
  current_problem : Option Problem
deriving DecidableEq

/-- The number of live enemies of a game state. -/
def aliveEnemyCount (enemies : List EnemyS) : ℤ :=
  ((enemies.filter (fun e => e.is_alive)).length : ℤ)

/-- Game.level_up (lines 1455-1467): increment the level; the sound and
the celebration particles are rendering. -/
def level_up (g : GameS) : GameS :=
  { g with level := g.level + 1 }

/-- Game.handle_answer (lines 1412-1453).  On a correct answer: add
50*level, increment the streak, add the streak bonus 25*streak when the
incremented streak exceeds 1, hit every live enemy adding 5*level each,
empty the enemy list, and level up when the streak is a multiple of 3.
On a wrong answer: reset the streak.  Either way enter LEVEL_TRANSITION
with a 0.8 second timer.  Button colours, particles and sounds are
rendering and are dropped. -/
def handle_answer (g : GameS) (is_correct : Bool) : GameS :=
  let g1 :=
    if is_correct then
      let g2 : GameS := { g with score := g.score + 50 * g.level,
                                 streak := g.streak + 1 }
      let g3 : GameS := if g2.streak > 1
                then { g2 with score := g2.score + 25 * g2.streak }
                else g2
      let g4 : GameS := { g3 with
                  score := g3.enemies.foldl
                    (fun sc e => if e.is_alive then sc + 5 * g3.level else sc)
                    g3.score,
                  enemies := [] }
      if g4.streak % 3 = 0 then level_up g4 else g4
    else
      { g with streak := 0 }
  { g1 with state_timer := 4/5, state := GState.LEVEL_TRANSITION }

/-- Game.reset_game (lines 1485-1494): zero the session counters, rebuild
the player at the arena centre (width // 2, height // 2), drop all
bullets, and install the freshly generated problem and enemy wave that
create_new_problem and spawn_enemies produce (their random outputs are
the two arguments). -/
def reset_game (g : GameS) (newProblem : Problem)
    (newEnemies : List EnemyS) : GameS :=
  { g with score := 0, level := 1, streak := 0, enemies_killed := 0,
           player := playerInit 450 350, bullets := [],
           current_problem := some newProblem, enemies := newEnemies }

/-- A concrete game state used to instantiate the handle_answer theorem:
playing at level 2 with a streak of 2 and two live enemies. -/
def sampleGame : GameS :=
  { state := GState.PLAYING, score := 100, high_score := 500, level := 2,
    streak := 2, enemies_killed := 4, total_enemies_killed := 9,
    state_timer := 0, player := playerInit 450 350, bullets := [],
    enemies := [{ x := 100, y := 100, health := 1, is_alive := true },
                { x := 200, y := 200, health := 2, is_alive := true }],
    current_problem := none }

/-- The strategy stream 6, 7, 8 used by the C2 witness. -/
def witnessStream : ℕ → ℚ := fun n => ([6, 7, 8] : List ℚ).getD n 0

/-! ## Theorems -/

theorem le_clamp (v a b : ℚ) : a ≤ clamp v a b :=
  le_max_left a (min v b)

theorem clamp_le (v a b : ℚ) (h : a ≤ b) : clamp v a b ≤ b :=
  max_le h (min_le_right v b)

/-- C8: a problem generated at difficulty tier 1 goes through the basic
arithmetic generator and its operator is addition, never subtraction,
multiplication or division. -/
theorem C8_tier1_addition_only (n1 n2 : ℤ) (opPick : Op) :
    problemFamily 1 = 1 ∧
    (generate_basic_arithmetic 1 n1 n2 opPick).operator = Op.add :=
  ⟨rfl, by simp [generate_basic_arithmetic]⟩

/-- C10: reset_game zeroes score, sets level to 1, zeroes streak and
enemies_killed, replaces the player with a fresh one at the arena
centre and empties the bullet list, while high_score and
total_enemies_killed keep their previous values. -/
theorem C10_reset_game (g : GameS) (newProblem : Problem)
    (newEnemies : List EnemyS) :
    (reset_game g newProblem newEnemies).score = 0 ∧
    (reset_game g newProblem newEnemies).level = 1 ∧
    (reset_game g newProblem newEnemies).streak = 0 ∧
    (reset_game g newProblem newEnemies).enemies_killed = 0 ∧
    (reset_game g newProblem newEnemies).player = playerInit 450 350 ∧
    (reset_game g newProblem newEnemies).bullets = [] ∧
    (reset_game g newProblem newEnemies).high_score = g.high_score ∧
    (reset_game g newProblem newEnemies).total_enemies_killed =
      g.total_enemies_killed :=
  ⟨rfl, rfl, rfl, rfl, rfl, rfl, rfl, rfl⟩

/-- C4: the claim says the reported answer of a quadratic problem is the
smaller of the two chosen roots, and the displayed problem text of the
source asks for the smaller solution, but the code keeps the root of
smaller absolute value.  At roots 1 and -5 (equation x^2 + 4x - 5 = 0,
both values shown to be roots below) the code reports 1 while the
smaller root is -5. -/
theorem C4_quadratic_not_smaller_root :
    quadReportedAnswer 1 (-5) = 1 ∧
    min (1 : ℤ) (-5) = -5 ∧
    (1 : ℤ) ^ 2 + 4 * 1 - 5 = 0 ∧
    (-5 : ℤ) ^ 2 + 4 * (-5) - 5 = 0 ∧
    quadReportedAnswer 1 (-5) ≠ min (1 : ℤ) (-5) := by
  refine ⟨by decide, by decide, by decide, by decide, by decide⟩

/-- C6: whatever the pressed keys and the frame delta, the player
position after Player.update lies in
[size, arenaWidth - size] x [size, arenaHeight - size]. -/
theorem C6_player_position_bounded (p : PlayerS) (delta_time : ℚ) (k : Keys) :
    PLAYER_SIZE ≤ (playerUpdate p delta_time k).1.x ∧
    (playerUpdate p delta_time k).1.x ≤ WINDOW_WIDTH - PLAYER_SIZE ∧
    PLAYER_SIZE ≤ (playerUpdate p delta_time k).1.y ∧
    (playerUpdate p delta_time k).1.y ≤ WINDOW_HEIGHT - PLAYER_SIZE := by
  have hx : PLAYER_SIZE ≤ WINDOW_WIDTH - PLAYER_SIZE := by
    norm_num [PLAYER_SIZE, WINDOW_WIDTH]
  have hy : PLAYER_SIZE ≤ WINDOW_HEIGHT - PLAYER_SIZE := by
    norm_num [PLAYER_SIZE, WINDOW_HEIGHT]
  unfold playerUpdate
  dsimp only
  split
  · exact ⟨le_clamp _ _ _, clamp_le _ _ _ hx, le_clamp _ _ _,
      clamp_le _ _ _ hy⟩
  · exact ⟨le_clamp _ _ _, clamp_le _ _ _ hx, le_clamp _ _ _,
      clamp_le _ _ _ hy⟩

/-- C5: a division problem of the intermediate tiers (4-6) has a dividend
that is an exact multiple of the divisor, and the stored correct answer
is the floor quotient num1 // num2 (which also equals the pre-drawn
quotient q).  The hypotheses record the tier range, the operator draw,
and the randint(2, 4*difficulty) lower bound of the divisor. -/
theorem C5_division_exact (difficulty : ℕ) (r : InterRand)
    (h4 : 4 ≤ difficulty) (h6 : difficulty ≤ 6)
    (hop : r.op = Op.div) (hd : 2 ≤ r.d) :
    problemFamily difficulty = 2 ∧
    (generate_intermediate_arithmetic difficulty r).num1 %
      (generate_intermediate_arithmetic difficulty r).num2 = 0 ∧
    (generate_intermediate_arithmetic difficulty r).correct_answer =
      (((generate_intermediate_arithmetic difficulty r).num1.fdiv
          (generate_intermediate_arithmetic difficulty r).num2 : ℤ) : ℚ) ∧
    (generate_intermediate_arithmetic difficulty r).correct_answer =
      ((r.q : ℤ) : ℚ) := by
  have hdz : r.d ≠ 0 := by omega
  have hmod : r.d * r.q % r.d = 0 := by
    rw [mul_comm]
    exact Int.mul_emod_left r.q r.d
  have hfam : problemFamily difficulty = 2 := by
    unfold problemFamily
    rw [min_eq_left (by omega : difficulty ≤ 15),
      if_neg (by omega : ¬ difficulty ≤ 3), if_pos h6]
  obtain ⟨n1, op, n2, m, d, q⟩ := r
  cases hop
  refine ⟨hfam, ?_, ?_, ?_⟩
  · exact hmod
  · simp only [generate_intermediate_arithmetic, calculate_answer]
    rw [if_pos hmod]
  · simp only [generate_intermediate_arithmetic, calculate_answer]
    rw [if_pos hmod, Int.mul_fdiv_cancel_left q hdz]

/-- C5 witness: at difficulty 5 with divisor 3 and hidden quotient 7 the
generated problem is 21 divided by 3 with stored answer 7. -/
theorem C5_division_exact_witness :
    problemFamily 5 = 2 ∧
    (generate_intermediate_arithmetic 5
        { n1 := 10, op := Op.div, n2 := 3, m := 4, d := 3, q := 7 }).num1 %
      (generate_intermediate_arithmetic 5
        { n1 := 10, op := Op.div, n2 := 3, m := 4, d := 3, q := 7 }).num2 = 0 ∧
    (generate_intermediate_arithmetic 5
        { n1 := 10, op := Op.div, n2 := 3, m := 4, d := 3, q := 7 }).correct_answer =
      (((generate_intermediate_arithmetic 5
          { n1 := 10, op := Op.div, n2 := 3, m := 4, d := 3, q := 7 }).num1.fdiv
          (generate_intermediate_arithmetic 5
            { n1 := 10, op := Op.div, n2 := 3, m := 4, d := 3, q := 7 }).num2 : ℤ) : ℚ) ∧
    (generate_intermediate_arithmetic 5
        { n1 := 10, op := Op.div, n2 := 3, m := 4, d := 3, q := 7 }).correct_answer =
      ((7 : ℤ) : ℚ) :=
  C5_division_exact 5 { n1 := 10, op := Op.div, n2 := 3, m := 4, d := 3, q := 7 }
    (by norm_num) (by norm_num) rfl (by norm_num)

/-- C7: when a movement step of any variant leaves the enemy with an
abscissa beyond the right arena boundary, the boundary code clamps x to
arenaWidth - size and replaces the heading by pi - direction (the y
checks leave it untouched while y stays in bounds), which mirrors the
horizontal heading component used by the next movement tick since
cos(pi - d) = -cos d. -/
theorem C7_enemy_right_bounce (x y : ℚ) (d : ℝ)
    (hx : WINDOW_WIDTH - 30 < x) (hy1 : 30 ≤ y)
    (hy2 : y ≤ WINDOW_HEIGHT - 30) :
    enemyBoundary 30 (fun t : ℝ => Real.pi - t) (fun t => -t) x y d =
      (WINDOW_WIDTH - 30, y, Real.pi - d) ∧
    Real.cos (Real.pi - d) = -Real.cos d := by
  constructor
  · have h1 : ¬ x < 30 := by
      rw [not_lt]
      calc (30 : ℚ) ≤ WINDOW_WIDTH - 30 := by norm_num [WINDOW_WIDTH]
        _ ≤ x := le_of_lt hx
    have h3 : ¬ y < 30 := not_lt.mpr hy1
    have h4 : ¬ y > WINDOW_HEIGHT - 30 := not_lt.mpr hy2
    unfold enemyBoundary
    simp only [if_neg h1, if_pos hx, if_neg h3, if_neg h4]
  · exact Real.cos_pi_sub d

/-- C7 witness: an enemy moved to x = 880 with y = 100 in bounds is
clamped to 870 and its heading 0 becomes pi. -/
theorem C7_enemy_right_bounce_witness :
    enemyBoundary 30 (fun t : ℝ => Real.pi - t) (fun t => -t) 880 100 0 =
      (WINDOW_WIDTH - 30, 100, Real.pi - 0) ∧
    Real.cos (Real.pi - 0) = -Real.cos 0 :=
  C7_enemy_right_bounce 880 100 0 (by norm_num [WINDOW_WIDTH])
    (by norm_num) (by norm_num [WINDOW_HEIGHT])

/-- C9: with the length computed as sqrt(dx^2 + dy^2) as in the source,
a zero direction vector takes the guarded else branch (no division) and
yields the straight-up velocity (0, -speed), while any nonzero
direction yields a velocity of magnitude exactly speed. -/
theorem C9_bullet_velocity (dx dy speed : ℝ) (hs : 0 ≤ speed) :
    (dx = 0 ∧ dy = 0 →
      bulletVelocity speed dx dy (Real.sqrt (dx ^ 2 + dy ^ 2)) = (0, -speed)) ∧
    (¬(dx = 0 ∧ dy = 0) →
      Real.sqrt
        ((bulletVelocity speed dx dy (Real.sqrt (dx ^ 2 + dy ^ 2))).1 ^ 2 +
          (bulletVelocity speed dx dy (Real.sqrt (dx ^ 2 + dy ^ 2))).2 ^ 2) =
        speed) := by
  constructor
  · rintro ⟨h1, h2⟩
    subst h1
    subst h2
    simp [bulletVelocity]
  · intro h
    have hpos : 0 < dx ^ 2 + dy ^ 2 := by
      rcases not_and_or.mp h with h1 | h1
      · have : 0 < dx ^ 2 := by positivity
        nlinarith [sq_nonneg dy]
      · have : 0 < dy ^ 2 := by positivity
        nlinarith [sq_nonneg dx]
    have hL : 0 < Real.sqrt (dx ^ 2 + dy ^ 2) := Real.sqrt_pos.mpr hpos
    have hL2 : Real.sqrt (dx ^ 2 + dy ^ 2) ^ 2 = dx ^ 2 + dy ^ 2 :=
      Real.sq_sqrt (le_of_lt hpos)
    unfold bulletVelocity
    rw [if_pos hL]
    have key :
        (dx / Real.sqrt (dx ^ 2 + dy ^ 2) * speed) ^ 2 +
          (dy / Real.sqrt (dx ^ 2 + dy ^ 2) * speed) ^ 2 = speed ^ 2 := by
      have hLne : Real.sqrt (dx ^ 2 + dy ^ 2) ≠ 0 := ne_of_gt hL
      field_simp
      ring
    rw [key, Real.sqrt_sq hs]

/-- C9 witness: direction (3, 4) at speed 12 gives a velocity of
magnitude 12. -/
theorem C9_bullet_velocity_witness :
    ((3 : ℝ) = 0 ∧ (4 : ℝ) = 0 →
      bulletVelocity 12 3 4 (Real.sqrt ((3 : ℝ) ^ 2 + 4 ^ 2)) = (0, -12)) ∧
    (¬((3 : ℝ) = 0 ∧ (4 : ℝ) = 0) →
      Real.sqrt
        ((bulletVelocity 12 3 4 (Real.sqrt ((3 : ℝ) ^ 2 + 4 ^ 2))).1 ^ 2 +
          (bulletVelocity 12 3 4 (Real.sqrt ((3 : ℝ) ^ 2 + 4 ^ 2))).2 ^ 2) =
        12) :=
  C9_bullet_velocity 3 4 12 (by norm_num)

theorem aliveEnemyCount_cons (e : EnemyS) (t : List EnemyS) :
    aliveEnemyCount (e :: t) =
      (if e.is_alive then 1 else 0) + aliveEnemyCount t := by
  unfold aliveEnemyCount
  rw [List.filter_cons]
  by_cases he : e.is_alive
  · simp only [he, if_pos, List.length_cons]
    push_cast
    ring
  · simp [he]

theorem foldl_alive_score (lv : ℤ) (l : List EnemyS) (sc : ℤ) :
    l.foldl (fun sc e => if e.is_alive then sc + 5 * lv else sc) sc =
      sc + 5 * lv * aliveEnemyCount l := by
  induction l generalizing sc with
  | nil => simp [aliveEnemyCount]
  | cons e t ih =>
      rw [List.foldl_cons, aliveEnemyCount_cons]
      by_cases he : e.is_alive
      · rw [if_pos he, if_pos he, ih]
        ring
      · rw [if_neg he, if_neg he, ih]
        ring

/-- C3: a correct answer at streak s, level L and n live enemies adds
50L to the score, plus 25(s+1) when s+1 exceeds 1, plus 5L per live
enemy; the streak becomes s+1; the enemy list is emptied; the level
rises by 1 exactly when s+1 is a multiple of 3; and the state becomes
LEVEL_TRANSITION. -/
theorem C3_handle_answer_correct (g : GameS) (_hst : g.state = GState.PLAYING) :
    (handle_answer g true).score =
      g.score + 50 * g.level +
        (if g.streak + 1 > 1 then 25 * (g.streak + 1) else 0) +
        5 * g.level * aliveEnemyCount g.enemies ∧
    (handle_answer g true).streak = g.streak + 1 ∧
    (handle_answer g true).enemies = [] ∧
    (handle_answer g true).level =
      (if (g.streak + 1) % 3 = 0 then g.level + 1 else g.level) ∧
    (handle_answer g true).state = GState.LEVEL_TRANSITION := by
  unfold handle_answer
  dsimp only
  rw [if_pos rfl]
  by_cases hb : g.streak + 1 > 1
  · rw [if_pos hb, if_pos hb]
    by_cases h3 : (g.streak + 1) % 3 = 0
    · rw [if_pos h3, if_pos h3]
      unfold level_up
      refine ⟨?_, rfl, rfl, rfl, rfl⟩
      dsimp only
      rw [foldl_alive_score]
    · rw [if_neg h3, if_neg h3]
      refine ⟨?_, rfl, rfl, rfl, rfl⟩
      dsimp only
      rw [foldl_alive_score]
  · rw [if_neg hb, if_neg hb]
    by_cases h3 : (g.streak + 1) % 3 = 0
    · rw [if_pos h3, if_pos h3]
      unfold level_up
      refine ⟨?_, rfl, rfl, rfl, rfl⟩
      dsimp only
      rw [foldl_alive_score]
      ring
    · rw [if_neg h3, if_neg h3]
      refine ⟨?_, rfl, rfl, rfl, rfl⟩
      dsimp only
      rw [foldl_alive_score]
      ring

/-- C3 witness: at level 2, streak 2 and two live enemies, a correct
answer yields score 100 + 100 + 75 + 20 = 295, streak 3, no enemies,
level 3 and the LEVEL_TRANSITION state. -/
theorem C3_handle_answer_correct_witness :
    (handle_answer sampleGame true).score =
      sampleGame.score + 50 * sampleGame.level +
        (if sampleGame.streak + 1 > 1 then 25 * (sampleGame.streak + 1) else 0) +
        5 * sampleGame.level * aliveEnemyCount sampleGame.enemies ∧
    (handle_answer sampleGame true).streak = sampleGame.streak + 1 ∧
    (handle_answer sampleGame true).enemies = [] ∧
    (handle_answer sampleGame true).level =
      (if (sampleGame.streak + 1) % 3 = 0 then sampleGame.level + 1
       else sampleGame.level) ∧
    (handle_answer sampleGame true).state = GState.LEVEL_TRANSITION :=
  C3_handle_answer_correct sampleGame rfl

theorem acceptStrategy_eq_true (c : ℚ) (s : Finset ℚ) (w : ℚ) :
    acceptStrategy c s w = true ↔
      w ≠ c ∧ w ∉ s ∧ |w - c| ≤ max 10 (|c| * 2) ∧ |w| ≤ |c| * 5 := by
  simp [acceptStrategy, and_assoc]

theorem acceptFallback_eq_true (c : ℚ) (s : Finset ℚ) (w : ℚ) :
    acceptFallback c s w = true ↔ w ≠ c ∧ w ∉ s := by
  simp [acceptFallback]

theorem strategyLoop_card_le (c : ℚ) (count : ℕ) (st : ℕ → ℚ) :
    ∀ fuel i (s t : Finset ℚ), s.card ≤ count →
      strategyLoop c count st fuel i s = some t → t.card ≤ count := by
  intro fuel
  induction fuel with
  | zero => intro i s t _ h; exact absurd h (by simp [strategyLoop])
  | succ n ih =>
      intro i s t hs h
      unfold strategyLoop at h
      by_cases hg : s.card < count ∧ s.card < strategiesLen
      · rw [if_pos hg] at h
        refine ih (i + 1) _ t ?_ h
        by_cases ha : acceptStrategy c s (st i) = true
        · rw [if_pos ha]
          calc (insert (st i) s).card ≤ s.card + 1 := Finset.card_insert_le _ _
            _ ≤ count := hg.1
        · rw [if_neg ha]
          exact hs
      · rw [if_neg hg] at h
        cases h
        exact hs

theorem strategyLoop_notCorrect (c : ℚ) (count : ℕ) (st : ℕ → ℚ) :
    ∀ fuel i (s t : Finset ℚ), (∀ w ∈ s, w ≠ c) →
      strategyLoop c count st fuel i s = some t → ∀ w ∈ t, w ≠ c := by
  intro fuel
  induction fuel with
  | zero => intro i s t _ h; exact absurd h (by simp [strategyLoop])
  | succ n ih =>
      intro i s t hs h
      unfold strategyLoop at h
      by_cases hg : s.card < count ∧ s.card < strategiesLen
      · rw [if_pos hg] at h
        refine ih (i + 1) _ t ?_ h
        by_cases ha : acceptStrategy c s (st i) = true
        · rw [if_pos ha]
          intro w hw
          rcases Finset.mem_insert.mp hw with hw | hw
          · subst hw
            exact ((acceptStrategy_eq_true c s (st i)).mp ha).1
          · exact hs w hw
        · rw [if_neg ha]
          exact hs
      · rw [if_neg hg] at h
        cases h
        exact hs

theorem fallbackLoop_card (c : ℚ) (count : ℕ) (st : ℕ → ℚ) :
    ∀ fuel i (s t : Finset ℚ), s.card ≤ count →
      fallbackLoop c count st fuel i s = some t → t.card = count := by
  intro fuel
  induction fuel with
  | zero => intro i s t _ h; exact absurd h (by simp [fallbackLoop])
  | succ n ih =>
      intro i s t hs h
      unfold fallbackLoop at h
      by_cases hg : s.card < count
      · rw [if_pos hg] at h
        refine ih (i + 1) _ t ?_ h
        by_cases ha : acceptFallback c s (st i) = true
        · rw [if_pos ha]
          calc (insert (st i) s).card ≤ s.card + 1 := Finset.card_insert_le _ _
            _ ≤ count := hg
        · rw [if_neg ha]
          exact hs
      · rw [if_neg hg] at h
        cases h
        omega

theorem fallbackLoop_notCorrect (c : ℚ) (count : ℕ) (st : ℕ → ℚ) :
    ∀ fuel i (s t : Finset ℚ), (∀ w ∈ s, w ≠ c) →
      fallbackLoop c count st fuel i s = some t → ∀ w ∈ t, w ≠ c := by
  intro fuel
  induction fuel with
  | zero => intro i s t _ h; exact absurd h (by simp [fallbackLoop])
  | succ n ih =>
      intro i s t hs h
      unfold fallbackLoop at h
      by_cases hg : s.card < count
      · rw [if_pos hg] at h
        refine ih (i + 1) _ t ?_ h
        by_cases ha : acceptFallback c s (st i) = true
        · rw [if_pos ha]
          intro w hw
          rcases Finset.mem_insert.mp hw with hw | hw
          · subst hw
            exact ((acceptFallback_eq_true c s (st i)).mp ha).1
          · exact hs w hw
        · rw [if_neg ha]
          exact hs
      · rw [if_neg hg] at h
        cases h
        exact hs

/-- C2: whenever generate_wrong_answers returns, the returned collection
holds exactly count pairwise-distinct values (it is a Finset of
cardinality count) and none of them equals the correct answer, for any
correct answer, any count, any random draws and any fuel. -/
theorem C2_wrong_answers_count_and_distinct (correct : ℚ) (count : ℕ)
    (s1 s2 : ℕ → ℚ) (f1 f2 : ℕ) (result : Finset ℚ)
    (h : generate_wrong_answers correct count s1 s2 f1 f2 = some result) :
    result.card = count ∧ ∀ w ∈ result, w ≠ correct := by
  unfold generate_wrong_answers at h
  obtain ⟨mid, hmid, hfb⟩ := Option.bind_eq_some.mp h
  have hcard1 : mid.card ≤ count :=
    strategyLoop_card_le correct count s1 f1 0 ∅ mid (by simp) hmid
  have hmem1 : ∀ w ∈ mid, w ≠ correct :=
    strategyLoop_notCorrect correct count s1 f1 0 ∅ mid (by simp) hmid
  exact ⟨fallbackLoop_card correct count s2 f2 0 mid result hcard1 hfb,
    fallbackLoop_notCorrect correct count s2 f2 0 mid result hmem1 hfb⟩

theorem acceptStrategy_mk (c w : ℚ) (s : Finset ℚ) (h1 : w ≠ c)
    (h2 : w ∉ s) (h3 : |w - c| ≤ max 10 (|c| * 2)) (h4 : |w| ≤ |c| * 5) :
    acceptStrategy c s w = true := by
  simp only [acceptStrategy, Bool.and_eq_true, decide_eq_true_eq]
  exact ⟨⟨⟨h1, h2⟩, h3⟩, h4⟩

theorem strategyLoop_enter (c : ℚ) (count : ℕ) (st : ℕ → ℚ)
    (fuel i : ℕ) (s : Finset ℚ)
    (hg : s.card < count ∧ s.card < strategiesLen) :
    strategyLoop c count st (fuel + 1) i s =
      strategyLoop c count st fuel (i + 1)
        (if acceptStrategy c s (st i) then insert (st i) s else s) := by
  simp only [strategyLoop]
  rw [if_pos hg]

theorem strategyLoop_exit (c : ℚ) (count : ℕ) (st : ℕ → ℚ)
    (fuel i : ℕ) (s : Finset ℚ)
    (hg : ¬(s.card < count ∧ s.card < strategiesLen)) :
    strategyLoop c count st (fuel + 1) i s = some s := by
  unfold strategyLoop
  rw [if_neg hg]

theorem fallbackLoop_exit (c : ℚ) (count : ℕ) (st : ℕ → ℚ)
    (fuel i : ℕ) (s : Finset ℚ) (hg : ¬ s.card < count) :
    fallbackLoop c count st (fuel + 1) i s = some s := by
  unfold fallbackLoop
  rw [if_neg hg]

/-- A run of generate_wrong_answers with count 3 in which the first
three candidates of the strategy stream are accepted: the call returns
those three values. -/
theorem generate_wrong_answers_three (c : ℚ) (st1 st2 : ℕ → ℚ)
    (h1 : acceptStrategy c ∅ (st1 0) = true)
    (h2 : acceptStrategy c {st1 0} (st1 1) = true)
    (h3 : acceptStrategy c {st1 1, st1 0} (st1 2) = true)
    (hc1 : ({st1 0} : Finset ℚ).card = 1)
    (hc2 : ({st1 1, st1 0} : Finset ℚ).card = 2)
    (hc3 : ({st1 2, st1 1, st1 0} : Finset ℚ).card = 3) :
    generate_wrong_answers c 3 st1 st2 4 1 =
      some {st1 2, st1 1, st1 0} := by
  have g0 : (∅ : Finset ℚ).card < 3 ∧ (∅ : Finset ℚ).card < strategiesLen := by
    simp [strategiesLen]
  have g1 : ({st1 0} : Finset ℚ).card < 3 ∧
      ({st1 0} : Finset ℚ).card < strategiesLen := by
    rw [hc1]
    norm_num [strategiesLen]
  have g2 : ({st1 1, st1 0} : Finset ℚ).card < 3 ∧
      ({st1 1, st1 0} : Finset ℚ).card < strategiesLen := by
    rw [hc2]
    norm_num [strategiesLen]
  have g3 : ¬(({st1 2, st1 1, st1 0} : Finset ℚ).card < 3 ∧
      ({st1 2, st1 1, st1 0} : Finset ℚ).card < strategiesLen) := by
    rw [hc3]
    norm_num
  have hrun : strategyLoop c 3 st1 4 0 ∅ = some {st1 2, st1 1, st1 0} := by
    calc strategyLoop c 3 st1 4 0 ∅
        = strategyLoop c 3 st1 3 1
            (if acceptStrategy c ∅ (st1 0) then insert (st1 0) ∅ else ∅) :=
          strategyLoop_enter c 3 st1 3 0 ∅ g0
      _ = strategyLoop c 3 st1 3 1 {st1 0} := by
          rw [h1]
          simp
      _ = strategyLoop c 3 st1 2 2
            (if acceptStrategy c {st1 0} (st1 1)
             then insert (st1 1) {st1 0} else {st1 0}) :=
          strategyLoop_enter c 3 st1 2 1 {st1 0} g1
      _ = strategyLoop c 3 st1 2 2 {st1 1, st1 0} := by
          rw [h2]
          simp
      _ = strategyLoop c 3 st1 1 3
            (if acceptStrategy c {st1 1, st1 0} (st1 2)
             then insert (st1 2) {st1 1, st1 0} else {st1 1, st1 0}) :=
          strategyLoop_enter c 3 st1 1 2 {st1 1, st1 0} g2
      _ = strategyLoop c 3 st1 1 3 {st1 2, st1 1, st1 0} := by
          rw [h3]
          simp
      _ = some {st1 2, st1 1, st1 0} :=
          strategyLoop_exit c 3 st1 0 3 {st1 2, st1 1, st1 0} g3
  unfold generate_wrong_answers
  rw [hrun, Option.some_bind]
  exact fallbackLoop_exit c 3 st2 0 0 {st1 2, st1 1, st1 0}
    (by rw [hc3]; norm_num)

/-- C2 witness: with correct answer 5 and candidate stream 6, 7, 8 the
call returns exactly the three distinct values 8, 7, 6, none equal
to 5. -/
theorem C2_wrong_answers_witness :
    ({8, 7, 6} : Finset ℚ).card = 3 ∧
      ∀ w ∈ ({8, 7, 6} : Finset ℚ), w ≠ (5 : ℚ) :=
  C2_wrong_answers_count_and_distinct 5 3 witnessStream (fun _ => 0) 4 1
    {8, 7, 6}
    (generate_wrong_answers_three 5 witnessStream (fun _ => 0)
      (acceptStrategy_mk 5 6 ∅ (by norm_num) (by simp)
        (by norm_num) (by norm_num))
      (acceptStrategy_mk 5 7 {6} (by norm_num) (by norm_num)
        (by norm_num) (by norm_num))
      (acceptStrategy_mk 5 8 {7, 6} (by norm_num) (by norm_num)
        (by norm_num) (by norm_num))
      (by norm_num)
      (by show ({7, 6} : Finset ℚ).card = 2; norm_num)
      (by show ({8, 7, 6} : Finset ℚ).card = 3; norm_num))

/-- With correct answer 0 no candidate can ever pass the strategy-loop
acceptance test: it requires both abs(wrong) at most 5*abs(0) = 0 and
wrong different from 0. -/
theorem acceptStrategy_zero (s : Finset ℚ) (w : ℚ) :
    acceptStrategy 0 s w = false := by
  by_cases h : w = 0
  · subst h
    simp [acceptStrategy]
  · simp only [acceptStrategy, Bool.and_eq_true, decide_eq_true_eq,
      abs_zero, zero_mul, abs_nonpos_iff, Bool.and_eq_false_iff,
      decide_eq_false_iff_not]
    tauto

/-- With correct answer 0 and count 3 the strategy loop never adds a
value, so its guard stays true and it consumes any amount of fuel
without returning. -/
theorem strategyLoop_zero_none (st : ℕ → ℚ) :
    ∀ fuel i (s : Finset ℚ), s.card < 3 →
      strategyLoop 0 3 st fuel i s = none := by
  intro fuel
  induction fuel with
  | zero => intro i s _; rfl
  | succ n ih =>
      intro i s h
      have hg : s.card < 3 ∧ s.card < strategiesLen :=
        ⟨h, lt_of_lt_of_le h (by norm_num [strategiesLen])⟩
      rw [strategyLoop_enter 0 3 st n i s hg, acceptStrategy_zero]
      simp only [Bool.false_eq_true, if_false]
      exact ih (i + 1) s h

/-- C1 counterexample: a problem with correct answer 0 is generable at
the advanced tiers (sin(0 degrees) = 0 is in the sine table), and for
such a problem generate_wrong_answers(count=3) never returns: no
candidate stream and no amount of loop fuel produces a result, because
the strategy-loop acceptance test is unsatisfiable at correct = 0. -/
theorem C1_counterexample :
    ((0 : ℕ), (0 : ℚ)) ∈ sinAngleChoices ∧
    ¬ ∃ (s1 s2 : ℕ → ℚ) (f1 f2 : ℕ) (r : Finset ℚ),
        generate_wrong_answers 0 3 s1 s2 f1 f2 = some r := by
  constructor
  · simp [sinAngleChoices]
  · rintro ⟨s1, s2, f1, f2, r, h⟩
    unfold generate_wrong_answers at h
    rw [strategyLoop_zero_none s1 f1 0 ∅ (by simp)] at h
    simp at h

/-- C1 amended: for a problem whose correct answer is 0,
generate_wrong_answers(count=3) never returns — the strategy-loop
acceptance test is unsatisfiable there, so the call diverges on every
random sequence (the universally quantified candidate streams cover
every sequence the 13 strategies can draw) and with any amount of
fuel. -/
theorem C1_amended_zero_never_returns (s1 s2 : ℕ → ℚ) (f1 f2 : ℕ) :
    generate_wrong_answers 0 3 s1 s2 f1 f2 = none := by
  unfold generate_wrong_answers
  rw [strategyLoop_zero_none s1 f1 0 ∅ (by simp)]
  rfl

end MathGame
